import Mathlib

/-!
Verification of the query-intent classification and parameter-synthesis
engine of the qloo MCP server (`server/qloo.py`).

The Python source is shallowly embedded: query texts are Lean `String`s,
Python dictionaries become association lists with Python `dict` update
semantics (`pset` overwrites in place, `pget` looks up), Python substring
tests (`word in text`) become `pyIn`, and the handful of regular
expressions used by the source (`re.search`) are embedded as executable
matchers specialised to the exact patterns that appear in the code.
Code paths that raise a Python exception are modelled with `Except`.
-/

namespace Qloo

/-- Python whitespace class `\s` over ASCII: space, tab, newline, carriage
return, form feed, vertical tab. -/
def isSpaceCh (c : Char) : Bool :=
  c = ' ' || c = '\t' || c = '\n' || c = '\r' || c = '\x0b' || c = '\x0c'

/-- `needle` is a prefix of `hay` (character lists). -/
def isPre : List Char → List Char → Bool
  | [], _ => true
  | _ :: _, [] => false
  | a :: as, b :: bs => a = b && isPre as bs

/-- `needle` occurs as a contiguous substring of `hay` (character lists).
Empty needle occurs everywhere, matching Python semantics. -/
def containsSub (n : List Char) : List Char → Bool
  | [] => n.isEmpty
  | c :: rest => isPre n (c :: rest) || containsSub n rest

/-- Python `needle in hay` on strings. -/
def pyIn (needle hay : String) : Bool :=
  containsSub needle.data hay.data

/-- Python `str.lower()` (ASCII case folding, which covers every keyword
the source tests against). -/
def pyLower (s : String) : String :=
  String.mk (s.data.map Char.toLower)

/-- `any(word in query_text for word in ws)`. -/
def anyIn (ws : List String) (q : String) : Bool :=
  ws.any (fun w => pyIn w q)

/-! ### Python dict as an association list -/

/-- A Python dict of request parameters: keys in insertion order, unique. -/
abbrev ParamSet := List (String × String)

/-- Python `d[k] = v`: overwrite in place if the key exists (keys are
unique, every `ParamSet` being built from `[]` by `pset`), else append. -/
def pset : ParamSet → String → String → ParamSet
  | [], k, v => [(k, v)]
  | a :: as, k, v => if a.1 = k then (k, v) :: as else a :: pset as k v

/-- Python `d.get(k)` / `k in d`. -/
def pget (ps : ParamSet) (k : String) : Option String :=
  (ps.find? (fun p => p.1 = k)).map Prod.snd

/-- Python `del d[k]`. -/
def pdel (ps : ParamSet) (k : String) : ParamSet :=
  ps.filter (fun p => ¬ (p.1 = k))

/-- `",".join(xs)`. -/
def joinComma (xs : List String) : String :=
  String.intercalate "," xs

/-! ### The regular expressions of the source, embedded -/

/-- One piece of a Python regex as used by the source: a literal, `\s+`,
`\s*`, or the year alternation `(19|20)\d{2}`.  Every pattern in the
source that uses a whitespace quantifier follows it with a piece that
cannot start with whitespace, so consuming the maximal whitespace run is
exact (no backtracking is lost). -/
inductive RePiece
  | lit (w : String)
  | wsPlus
  | wsStar
  | year
deriving Repr

/-- Match a piece sequence anchored at the start of `s`. -/
def matchPiecesAt : List RePiece → List Char → Bool
  | [], _ => true
  | RePiece.lit w :: ps, s => isPre w.data s && matchPiecesAt ps (s.drop w.data.length)
  | RePiece.wsPlus :: ps, s =>
      decide (0 < (s.takeWhile isSpaceCh).length) && matchPiecesAt ps (s.dropWhile isSpaceCh)
  | RePiece.wsStar :: ps, s => matchPiecesAt ps (s.dropWhile isSpaceCh)
  | RePiece.year :: ps, s =>
      match s with
      | a :: b :: c :: d :: rest =>
          ((a = '1' && b = '9') || (a = '2' && b = '0')) && c.isDigit && d.isDigit
            && matchPiecesAt ps rest
      | _ => false

/-- `re.search` of a piece sequence: does it match at any position? -/
def searchPieces (ps : List RePiece) : List Char → Bool
  | [] => matchPiecesAt ps []
  | c :: rest => matchPiecesAt ps (c :: rest) || searchPieces ps rest

/-- `re.search` returning only whether some alternative of an alternation
matches somewhere in the string. -/
def reSearchAny (alts : List (List RePiece)) (s : String) : Bool :=
  alts.any (fun a => searchPieces a s.data)

/-- `re.search(r'(19|20)\d{2}', s)` — the matched 4-character year text of
the leftmost match, if any. -/
def yearSearch : List Char → Option String
  | a :: b :: c :: d :: rest =>
      if ((a = '1' && b = '9') || (a = '2' && b = '0')) && c.isDigit && d.isDigit then
        some (String.mk [a, b, c, d])
      else yearSearch (b :: c :: d :: rest)
  | _ => none

/-- `re.search(r'(19|20)\d{2}', q)` on a query string. -/
def yearSearchStr (q : String) : Option String :=
  yearSearch q.data

/-! ### Artist branch (source lines 199-266) -/

def artistParams (q : String) : ParamSet :=
  let p : ParamSet := []
  let p := pset p "filter.type" "urn:entity:artist"
  let p :=
    if pyIn "trending" q || pyIn "hot" q || pyIn "viral" q then pset p "bias.trends" "high"
    else if pyIn "classic" q || pyIn "timeless" q then pset p "bias.trends" "low"
    else p
  let p :=
    if pyIn "popular" q || pyIn "famous" q || pyIn "well-known" q then
      pset p "filter.popularity.min" "0.7"
    else if pyIn "underground" q || pyIn "indie" q || pyIn "emerging" q then
      pset p "filter.popularity.max" "0.4"
    else if pyIn "mainstream" q then pset p "filter.popularity.min" "0.6"
    else p
  let tags : List String := []
  let tags := if pyIn "rock" q then tags ++ ["urn:tag:genre:music:rock"] else tags
  let tags := if pyIn "pop" q then tags ++ ["urn:tag:genre:music:pop"] else tags
  let tags := if pyIn "jazz" q then tags ++ ["urn:tag:genre:music:jazz"] else tags
  let tags := if pyIn "classical" q then tags ++ ["urn:tag:genre:music:classical"] else tags
  let tags :=
    if pyIn "hip hop" q || pyIn "rap" q then tags ++ ["urn:tag:genre:music:hip_hop"] else tags
  let tags :=
    if pyIn "electronic" q || pyIn "edm" q then tags ++ ["urn:tag:genre:music:electronic"]
    else tags
  let tags := if pyIn "country" q then tags ++ ["urn:tag:genre:music:country"] else tags
  let tags := if pyIn "folk" q then tags ++ ["urn:tag:genre:music:folk"] else tags
  let tags :=
    if pyIn "painter" q || pyIn "painting" q then tags ++ ["urn:tag:medium:visual:painting"]
    else tags
  let tags :=
    if pyIn "sculptor" q || pyIn "sculpture" q then tags ++ ["urn:tag:medium:visual:sculpture"]
    else tags
  let tags :=
    if pyIn "photographer" q || pyIn "photography" q then
      tags ++ ["urn:tag:medium:visual:photography"]
    else tags
  let p := if tags.isEmpty then p else pset p "filter.tags" (joinComma tags)
  let p :=
    if pyIn "spotify" q then pset p "filter.external.exists" "spotify"
    else if pyIn "instagram" q then pset p "filter.external.exists" "instagram"
    else if pyIn "youtube" q then pset p "filter.external.exists" "youtube"
    else p
  let ex : List String := []
  let ex := if pyIn "not indie" q then ex ++ ["urn:tag:genre:music:indie"] else ex
  let ex := if pyIn "not mainstream" q then ex ++ ["urn:tag:genre:music:mainstream"] else ex
  let p := if ex.isEmpty then p else pset p "filter.exclude.tags" (joinComma ex)
  p

def artistTrigger (q : String) : Bool :=
  anyIn ["artist", "musician", "singer", "band", "composer", "painter", "sculptor",
    "performer"] q

/-! ### Brand branch (source lines 269-342)

The branch body ends with an unconditional reassignment to the book entity
type (a leftover of an earlier revision whose `elif` for books was merged
into the brand branch), so every brand query yields `urn:entity:book`. -/

/-- Source lines 332-342: the dead-code fallthrough at the end of the
brand branch — an unconditional reassignment to `urn:entity:book`
followed by the book-specific publication-year extraction. -/
def bookTailParams (q : String) (p : ParamSet) : ParamSet :=
  let p := pset p "filter.type" "urn:entity:book"
  let p :=
    match yearSearchStr q with
    | some y => pset p "filter.publication_year.min" y
    | none => p
  if pyIn "recent" q || pyIn "new" q then pset p "filter.publication_year.min" "2020"
  else p

/-- Source lines 269-331: the brand-specific body of the branch. -/
def brandCoreParams (q : String) : ParamSet :=
  let p : ParamSet := []
  let p := pset p "filter.type" "urn:entity:brand"
  let p :=
    if pyIn "trending" q || pyIn "hot" q || pyIn "growing" q then pset p "bias.trends" "high"
    else if pyIn "established" q || pyIn "traditional" q then pset p "bias.trends" "low"
    else p
  let p :=
    if pyIn "popular" q || pyIn "well-known" q || pyIn "major" q then
      pset p "filter.popularity.min" "0.7"
    else if pyIn "niche" q || pyIn "boutique" q || pyIn "small" q then
      pset p "filter.popularity.max" "0.4"
    else if pyIn "emerging" q || pyIn "startup" q then pset p "filter.popularity.max" "0.5"
    else p
  let tags : List String := []
  let tags :=
    if pyIn "fashion" q || pyIn "clothing" q then tags ++ ["urn:tag:category:brand:fashion"]
    else tags
  let tags :=
    if pyIn "technology" q || pyIn "tech" q then tags ++ ["urn:tag:category:brand:technology"]
    else tags
  let tags :=
    if pyIn "food" q || pyIn "restaurant" q then tags ++ ["urn:tag:category:brand:food"]
    else tags
  let tags :=
    if pyIn "retail" q || pyIn "shopping" q then tags ++ ["urn:tag:category:brand:retail"]
    else tags
  let tags :=
    if pyIn "automotive" q || pyIn "car" q then tags ++ ["urn:tag:category:brand:automotive"]
    else tags
  let tags :=
    if pyIn "luxury" q || pyIn "premium" q then tags ++ ["urn:tag:category:brand:luxury"]
    else tags
  let tags :=
    if pyIn "budget" q || pyIn "affordable" q then tags ++ ["urn:tag:category:brand:budget"]
    else tags
  let tags :=
    if pyIn "sustainable" q || pyIn "eco" q || pyIn "green" q then
      tags ++ ["urn:tag:category:brand:sustainable"]
    else tags
  let p := if tags.isEmpty then p else pset p "filter.tags" (joinComma tags)
  let p :=
    if pyIn "website" q then pset p "filter.external.exists" "website"
    else if pyIn "social media" q then
      pset p "filter.external.exists" "instagram,twitter,facebook"
    else p
  let p :=
    if pyIn "subsidiary" q || pyIn "owned by" q then
      pset p "filter.parents.types" "urn:entity:brand"
    else p
  let ex : List String := []
  let ex := if pyIn "not luxury" q then ex ++ ["urn:tag:category:brand:luxury"] else ex
  let ex := if pyIn "not budget" q then ex ++ ["urn:tag:category:brand:budget"] else ex
  let p :=
    if ex.isEmpty then p
    else pset (pset p "filter.exclude.tags" (joinComma ex)) "operator.exclude.tags" "union"
  p

def brandParams (q : String) : ParamSet :=
  bookTailParams q (brandCoreParams q)

def brandTrigger (q : String) : Bool :=
  anyIn ["brand", "company", "retail", "chain", "franchise", "corporation", "business"] q

/-! ### Movie branch (source lines 345-438) -/

def movieParams (q : String) : ParamSet :=
  let p : ParamSet := []
  let p := pset p "filter.type" "urn:entity:movie"
  let p :=
    match yearSearchStr q with
    | some y => pset p "filter.release_year.min" y
    | none => p
  let p :=
    if pyIn "recent" q || pyIn "new" q then pset p "filter.release_year.min" "2020"
    else if pyIn "classic" q then pset p "filter.release_year.max" "1990"
    else if pyIn "80s" q then
      pset (pset p "filter.release_year.min" "1980") "filter.release_year.max" "1989"
    else if pyIn "90s" q then
      pset (pset p "filter.release_year.min" "1990") "filter.release_year.max" "1999"
    else p
  let p :=
    if pyIn "family" q || pyIn "kids" q then pset p "filter.content_rating" "G,PG"
    else if pyIn "teen" q then pset p "filter.content_rating" "PG-13"
    else if pyIn "mature" q || pyIn "adult" q then pset p "filter.content_rating" "R"
    else p
  let p :=
    if pyIn "highly rated" q || pyIn "top rated" q then pset p "filter.rating.min" "4.0"
    else if pyIn "good" q then pset p "filter.rating.min" "3.5"
    else p
  let p :=
    if pyIn "blockbuster" q || pyIn "popular" q then pset p "filter.popularity.min" "0.7"
    else if pyIn "indie" q || pyIn "independent" q then pset p "filter.popularity.max" "0.5"
    else p
  let p := if pyIn "trending" q || pyIn "viral" q then pset p "bias.trends" "high" else p
  let p :=
    if pyIn "hollywood" q || pyIn "american" q then
      pset p "filter.release_country" "United States"
    else if pyIn "bollywood" q || pyIn "indian" q then pset p "filter.release_country" "India"
    else if pyIn "british" q || pyIn "uk" q then
      pset p "filter.release_country" "United Kingdom"
    else if pyIn "french" q then pset p "filter.release_country" "France"
    else if pyIn "japanese" q then pset p "filter.release_country" "Japan"
    else p
  let tags : List String := []
  let tags := if pyIn "action" q then tags ++ ["urn:tag:genre:media:action"] else tags
  let tags := if pyIn "comedy" q then tags ++ ["urn:tag:genre:media:comedy"] else tags
  let tags := if pyIn "drama" q then tags ++ ["urn:tag:genre:media:drama"] else tags
  let tags := if pyIn "horror" q then tags ++ ["urn:tag:genre:media:horror"] else tags
  let tags :=
    if pyIn "romance" q || pyIn "romantic" q then tags ++ ["urn:tag:genre:media:romance"]
    else tags
  let tags := if pyIn "thriller" q then tags ++ ["urn:tag:genre:media:thriller"] else tags
  let tags :=
    if pyIn "sci-fi" q || pyIn "science fiction" q then
      tags ++ ["urn:tag:genre:media:science_fiction"]
    else tags
  let tags := if pyIn "fantasy" q then tags ++ ["urn:tag:genre:media:fantasy"] else tags
  let tags :=
    if pyIn "documentary" q then tags ++ ["urn:tag:genre:media:documentary"] else tags
  let tags :=
    if pyIn "animation" q || pyIn "animated" q then tags ++ ["urn:tag:genre:media:animation"]
    else tags
  let p := if tags.isEmpty then p else pset p "filter.tags" (joinComma tags)
  let p :=
    if pyIn "imdb" q then pset p "filter.external.exists" "imdb"
    else if pyIn "rotten tomatoes" q then pset p "filter.external.exists" "rottentomatoes"
    else if pyIn "metacritic" q then pset p "filter.external.exists" "metacritic"
    else p
  p

def movieTrigger (q : String) : Bool :=
  anyIn ["movie", "film", "cinema", "blockbuster", "flick"] q

/-! ### Person branch (source lines 441-514)

Two quirks of the source are preserved: `year_match.group(2)` is called on
a regex with a single group, so a query matching `born in\s+(19|20)\d{2}`
raises `IndexError: no such group` (modelled with `Except.error`), and the
branch ends with an unconditional reassignment to the destination entity
type, so every surviving person query yields `urn:entity:destination`. -/

def bornYearRaises (q : String) : Bool :=
  pyIn "born in" q &&
    reSearchAny [[RePiece.lit "born in", RePiece.wsPlus, RePiece.year]] q

/-- The parameters the person branch builds when it does not raise
(source lines 442-514 with the `born in` year block skipped: that block
either raises — handled in `personBranch` — or adds nothing). -/
def personSurvivorParams (q : String) : ParamSet :=
  let p : ParamSet := []
  let p := pset p "filter.type" "urn:entity:person"
  let p :=
    if pyIn "male" q || pyIn "men" q then pset p "filter.gender" "male"
    else if pyIn "female" q || pyIn "women" q then pset p "filter.gender" "female"
    else p
  let p :=
    if pyIn "young" q || pyIn "under 30" q then pset p "filter.date_of_birth.min" "1990-01-01"
    else if pyIn "veteran" q || pyIn "experienced" q then
      pset p "filter.date_of_birth.max" "1970-01-01"
    else p
  let p :=
    if pyIn "famous" q || pyIn "well-known" q then pset p "filter.popularity.min" "0.7"
    else if pyIn "emerging" q || pyIn "up-and-coming" q then
      pset p "filter.popularity.max" "0.5"
    else p
  let p := if pyIn "trending" q || pyIn "viral" q then pset p "bias.trends" "high" else p
  let tags : List String := []
  let tags :=
    if pyIn "actor" q || pyIn "actress" q then tags ++ ["urn:tag:profession:actor"]
    else tags
  let tags := if pyIn "director" q then tags ++ ["urn:tag:profession:director"] else tags
  let tags :=
    if pyIn "musician" q || pyIn "singer" q then tags ++ ["urn:tag:profession:musician"]
    else tags
  let tags := if pyIn "politician" q then tags ++ ["urn:tag:profession:politician"] else tags
  let tags :=
    if pyIn "athlete" q || pyIn "sports" q then tags ++ ["urn:tag:profession:athlete"]
    else tags
  let tags :=
    if pyIn "author" q || pyIn "writer" q then tags ++ ["urn:tag:profession:author"]
    else tags
  let p := if tags.isEmpty then p else pset p "filter.tags" (joinComma tags)
  let p :=
    if pyIn "instagram" q then pset p "filter.external.exists" "instagram"
    else if pyIn "twitter" q then pset p "filter.external.exists" "twitter"
    else if pyIn "imdb" q then pset p "filter.external.exists" "imdb"
    else p
  let p := pset p "filter.type" "urn:entity:destination"
  let p :=
    if pyIn "usa" q || pyIn "america" q then pset p "filter.geocode.country_code" "US"
    else if pyIn "uk" q || pyIn "britain" q then pset p "filter.geocode.country_code" "GB"
    else if pyIn "japan" q then pset p "filter.geocode.country_code" "JP"
    else if pyIn "india" q then pset p "filter.geocode.country_code" "IN"
    else p
  p

/-- The person branch: the `IndexError` of source line 459 fires whenever
the `born in` year regex matches (the parameters built before the raise
are discarded with the exception); otherwise the branch completes with
the destination reassignment of line 503. -/
def personBranch (q : String) : Except String (String × ParamSet) :=
  if bornYearRaises q then Except.error "no such group"
  else Except.ok ("urn:entity:destination", personSurvivorParams q)

def personTrigger (q : String) : Bool :=
  anyIn ["person", "celebrity", "actor", "actress", "director", "politician", "athlete",
    "public figure"] q

/-! ### TV-show branch (source lines 550-635)

The branch ends with an unconditional reassignment to the person entity
type, so every TV query yields `urn:entity:person`. -/

/-- Source lines 628-635: the dead-code fallthrough at the end of the TV
branch — an unconditional reassignment to `urn:entity:person` followed by
the person-specific gender extraction. -/
def personTailParams (q : String) (p : ParamSet) : ParamSet :=
  let p := pset p "filter.type" "urn:entity:person"
  if pyIn "male" q then pset p "filter.gender" "male"
  else if pyIn "female" q then pset p "filter.gender" "female"
  else p

/-- Source lines 550-627: the TV-specific body of the branch. -/
def tvCoreParams (q : String) : ParamSet :=
  let p : ParamSet := []
  let p := pset p "filter.type" "urn:entity:tv_show"
  let p :=
    if pyIn "recent" q || pyIn "new" q then pset p "filter.release_year.min" "2020"
    else if pyIn "classic" q then pset p "filter.release_year.max" "2000"
    else p
  let p :=
    if pyIn "ended" q || pyIn "finished" q then pset p "filter.finale_year.max" "2023"
    else if pyIn "ongoing" q || pyIn "current" q then pset p "filter.finale_year.min" "2024"
    else p
  let p :=
    if pyIn "updated recently" q then pset p "filter.latest_known_year.min" "2022" else p
  let p :=
    if pyIn "family" q || pyIn "kids" q then pset p "filter.content_rating" "TV-G,TV-PG"
    else if pyIn "mature" q then pset p "filter.content_rating" "TV-MA"
    else p
  let p :=
    if pyIn "highly rated" q then pset p "filter.rating.min" "4.0"
    else if pyIn "good" q then pset p "filter.rating.min" "3.5"
    else p
  let p :=
    if pyIn "popular" q || pyIn "hit" q then pset p "filter.popularity.min" "0.7"
    else if pyIn "cult" q || pyIn "niche" q then pset p "filter.popularity.max" "0.5"
    else p
  let p := if pyIn "trending" q || pyIn "viral" q then pset p "bias.trends" "high" else p
  let p :=
    if pyIn "american" q || pyIn "us" q then pset p "filter.release_country" "United States"
    else if pyIn "british" q || pyIn "uk" q then
      pset p "filter.release_country" "United Kingdom"
    else if pyIn "korean" q || pyIn "k-drama" q then
      pset p "filter.release_country" "South Korea"
    else if pyIn "japanese" q || pyIn "anime" q then pset p "filter.release_country" "Japan"
    else p
  let tags : List String := []
  let tags := if pyIn "drama" q then tags ++ ["urn:tag:genre:media:drama"] else tags
  let tags := if pyIn "comedy" q then tags ++ ["urn:tag:genre:media:comedy"] else tags
  let tags := if pyIn "reality" q then tags ++ ["urn:tag:genre:media:reality"] else tags
  let tags :=
    if pyIn "documentary" q then tags ++ ["urn:tag:genre:media:documentary"] else tags
  let tags := if pyIn "crime" q then tags ++ ["urn:tag:genre:media:crime"] else tags
  let tags :=
    if pyIn "sci-fi" q then tags ++ ["urn:tag:genre:media:science_fiction"] else tags
  let tags := if pyIn "fantasy" q then tags ++ ["urn:tag:genre:media:fantasy"] else tags
  let tags := if pyIn "anime" q then tags ++ ["urn:tag:genre:media:anime"] else tags
  let p := if tags.isEmpty then p else pset p "filter.tags" (joinComma tags)
  p

def tvParams (q : String) : ParamSet :=
  personTailParams q (tvCoreParams q)

def tvTrigger (q : String) : Bool :=
  anyIn ["tv", "show", "series", "television", "netflix", "streaming", "episode"] q

/-! ### Podcast, second TV, and video-game branches (source lines 638-656) -/

def podcastParams : ParamSet :=
  pset [] "filter.type" "urn:entity:podcast"

def podcastTrigger (q : String) : Bool :=
  anyIn ["podcast", "audio", "episode", "series"] q

def tv2Params (q : String) : ParamSet :=
  let p : ParamSet := []
  let p := pset p "filter.type" "urn:entity:tv_show"
  let p :=
    if pyIn "recent" q || pyIn "new" q then pset p "filter.release_year.min" "2020" else p
  let p :=
    if pyIn "ended" q || pyIn "finished" q then pset p "filter.finale_year.max" "2023" else p
  p

def tv2Trigger (q : String) : Bool :=
  anyIn ["tv", "show", "series", "television", "netflix", "streaming"] q

def gameParams : ParamSet :=
  pset [] "filter.type" "urn:entity:video_game"

def gameTrigger (q : String) : Bool :=
  anyIn ["game", "video game", "gaming", "console", "pc game"] q

/-! ### Capturing regex searches of the place branch and the classifier

`re.search(r'in\s+([A-Za-z\s,]+?)(?:\s|$|for|with)', query)` and
`re.search(r'near\s+([A-Za-z\s,]+?)(?:\s|$)', query_text)`: leftmost start
position wins; at a start, the greedy `\s+` begins with the maximal
whitespace run and backtracks downwards, while the lazy capture group
grows from one character upwards until the tail alternation matches. -/

/-- The character class `[A-Za-z\s,]`. -/
def locClassCh (c : Char) : Bool :=
  ('A' ≤ c && c ≤ 'Z') || ('a' ≤ c && c ≤ 'z') || isSpaceCh c || c = ','

/-- Tail `(?:\s|$|for|with)` (with `for`/`with` only when `withFW`). -/
def capTailOk (withFW : Bool) (t : List Char) : Bool :=
  match t with
  | [] => true
  | c :: _ =>
      isSpaceCh c || (withFW && (isPre "for".data t || isPre "with".data t))

/-- Lazy group `([A-Za-z\s,]+?)` followed by the tail, anchored at `s`:
the shortest non-empty class-only prefix whose remainder satisfies the
tail. -/
def capGroup (withFW : Bool) (s : List Char) : Option (List Char) :=
  (List.range s.length).findSome? (fun g0 =>
    let g := g0 + 1
    let grp := s.take g
    if grp.all locClassCh && capTailOk withFW (s.drop g) then some grp else none)

/-- Greedy `\s+` (maximal run first, backtracking to shorter non-zero
runs) followed by the lazy group and tail. -/
def capAfterKw (withFW : Bool) (rest : List Char) : Option (List Char) :=
  let maxW := (rest.takeWhile isSpaceCh).length
  (List.range maxW).findSome? (fun k => capGroup withFW (rest.drop (maxW - k)))

/-- Leftmost search for `kw\s+([A-Za-z\s,]+?)(?:\s|$[|for|with])`,
returning the captured group. -/
def searchCapture (kw : String) (withFW : Bool) : List Char → Option (List Char)
  | [] => none
  | c :: rest =>
      match (if isPre kw.data (c :: rest) then
               capAfterKw withFW ((c :: rest).drop kw.data.length)
             else none) with
      | some g => some g
      | none => searchCapture kw withFW rest

/-- Python `str.strip()` (whitespace from both ends). -/
def pyStrip (s : List Char) : List Char :=
  ((s.dropWhile isSpaceCh).reverse.dropWhile isSpaceCh).reverse

/-- `location_match.group(1).strip() if location_match else ""`
(source line 49-50; runs on the original, non-lowercased query). -/
def extractLocation (query : String) : String :=
  match searchCapture "in" true query.data with
  | some g => String.mk (pyStrip g)
  | none => ""

/-- The address search of the place branch (source lines 756-758). -/
def addressSearch (q : String) : Option String :=
  (searchCapture "near" false q.data).map (fun g => String.mk (pyStrip g))

/-- `re.search(r'(\d+)\s*(people|person|party)', query_text)` — the digit
group of the leftmost match (source lines 778-781). -/
def partySearch : List Char → Option String
  | [] => none
  | c :: rest =>
      if c.isDigit then
        let run := (c :: rest).takeWhile Char.isDigit
        let after := ((c :: rest).dropWhile Char.isDigit).dropWhile isSpaceCh
        if isPre "people".data after || isPre "person".data after ||
            isPre "party".data after then
          some (String.mk run)
        else partySearch rest
      else partySearch rest

/-! ### Place branch — the default (source lines 659-783) -/

def cuisineMap : List (String × String) :=
  [("japanese", "urn:tag:cuisine:japanese"), ("italian", "urn:tag:cuisine:italian"),
   ("chinese", "urn:tag:cuisine:chinese"), ("indian", "urn:tag:cuisine:indian"),
   ("mexican", "urn:tag:cuisine:mexican"), ("thai", "urn:tag:cuisine:thai"),
   ("french", "urn:tag:cuisine:french"), ("korean", "urn:tag:cuisine:korean"),
   ("american", "urn:tag:cuisine:american"),
   ("mediterranean", "urn:tag:cuisine:mediterranean")]

def daysMap : List (String × String) :=
  [("monday", "Monday"), ("tuesday", "Tuesday"), ("wednesday", "Wednesday"),
   ("thursday", "Thursday"), ("friday", "Friday"), ("saturday", "Saturday"),
   ("sunday", "Sunday")]

def brandKeywords : List String :=
  ["starbucks", "mcdonalds", "hilton", "marriott", "walmart", "target"]

def placeParams (q : String) : ParamSet :=
  let p : ParamSet := []
  let p := pset p "filter.type" "urn:entity:place"
  let tagsAndP : List String × ParamSet :=
    if anyIn ["restaurant", "food", "dining", "eat", "meal", "cuisine"] q then
      let tags := ["urn:tag:genre:place:restaurant"]
      let tags := tags ++ (cuisineMap.filter (fun cp => pyIn cp.1 q)).map Prod.snd
      (tags, p)
    else if anyIn ["bar", "pub", "nightlife", "drinks", "cocktail", "beer"] q then
      (["urn:tag:genre:place:bar"], p)
    else if anyIn ["hotel", "accommodation", "stay", "lodge", "resort"] q then
      let p :=
        if pyIn "luxury" q || pyIn "5 star" q then pset p "filter.hotel_class.min" "4"
        else if pyIn "budget" q || pyIn "cheap" q then pset p "filter.hotel_class.max" "2"
        else p
      (["urn:tag:genre:place:hotel"], p)
    else if anyIn ["museum", "theater", "cinema", "entertainment", "gallery"] q then
      (if pyIn "museum" q then ["urn:tag:genre:place:museum"]
       else if pyIn "theater" q || pyIn "cinema" q then ["urn:tag:genre:place:entertainment"]
       else [], p)
    else if anyIn ["shopping", "mall", "store", "boutique", "market"] q then
      (["urn:tag:genre:place:shopping"], p)
    else if anyIn ["park", "outdoor", "nature", "garden", "beach"] q then
      (["urn:tag:genre:place:park"], p)
    else ([], p)
  let tags := tagsAndP.1
  let p := tagsAndP.2
  let p := if tags.isEmpty then p else pset p "filter.tags" (joinComma tags)
  let p :=
    if anyIn ["expensive", "luxury", "high-end", "premium"] q then
      pset p "filter.price_level.min" "3"
    else if anyIn ["cheap", "budget", "affordable", "inexpensive"] q then
      pset p "filter.price_level.max" "2"
    else if pyIn "mid-range" q || pyIn "moderate" q then
      pset (pset p "filter.price_level.min" "2") "filter.price_level.max" "3"
    else p
  let p :=
    if pyIn "highly rated" q || pyIn "top rated" q then
      pset p "filter.properties.business_rating.min" "4.0"
    else if pyIn "good rating" q then pset p "filter.properties.business_rating.min" "3.5"
    else p
  let p :=
    if pyIn "popular" q || pyIn "trending" q then pset p "filter.popularity.min" "0.7"
    else if pyIn "hidden gem" q || pyIn "local" q then pset p "filter.popularity.max" "0.5"
    else p
  let p :=
    match daysMap.find? (fun d => pyIn d.1 q) with
    | some d => pset p "filter.hours" d.2
    | none => p
  let p :=
    match addressSearch q with
    | some a => pset p "filter.address" a
    | none => p
  let p :=
    match brandKeywords.find? (fun b => pyIn b (pyLower q)) with
    | some b => pset p "filter.references_brand" ("urn:entity:brand:" ++ b)
    | none => p
  let p :=
    if pyIn "tripadvisor" q then
      let p := pset p "filter.external.exists" "tripadvisor"
      if pyIn "highly rated" q then pset p "filter.external.tripadvisor.rating.min" "4.0"
      else p
    else p
  let p :=
    if pyIn "resy" q || pyIn "reservation" q then pset p "filter.external.exists" "resy"
    else p
  let p :=
    match partySearch q.data with
    | some n => pset p "filter.external.resy.party_size.min" n
    | none => p
  p

/-! ### The entity cascade (`_determine_entity_and_comprehensive_params`) -/

/-- The `if/elif/else` cascade of source lines 199-783.  The error case
is the `IndexError` of the person branch. -/
def determineEntityAndParams (q : String) : Except String (String × ParamSet) :=
  if artistTrigger q then Except.ok ("urn:entity:artist", artistParams q)
  else if brandTrigger q then Except.ok ("urn:entity:book", brandParams q)
  else if movieTrigger q then Except.ok ("urn:entity:movie", movieParams q)
  else if personTrigger q then personBranch q
  else if tvTrigger q then Except.ok ("urn:entity:person", tvParams q)
  else if podcastTrigger q then Except.ok ("urn:entity:podcast", podcastParams)
  else if tv2Trigger q then Except.ok ("urn:entity:tv_show", tv2Params q)
  else if gameTrigger q then Except.ok ("urn:entity:video_game", gameParams)
  else Except.ok ("urn:entity:place", placeParams q)

/-! ### Use-case classification (`classify_user_query`, source lines 44-105) -/

inductive QlooUseCase
  | recommendationInsights
  | demographicInsights
  | heatmaps
  | locationBasedInsights
  | tasteAnalysis
deriving DecidableEq, Repr

/-- `use_case.value` of the Python enum. -/
def useCaseValue : QlooUseCase → String
  | .recommendationInsights => "recommendation_insights"
  | .demographicInsights => "demographic_insights"
  | .heatmaps => "heatmaps"
  | .locationBasedInsights => "location_based_insights"
  | .tasteAnalysis => "taste_analysis"

/-- The three `heatmap_patterns` regexes, expanded into their
alternatives. -/
def heatmapMatch (q : String) : Bool :=
  reSearchAny
    [[RePiece.lit "heatmap"], [RePiece.lit "heat", RePiece.wsStar, RePiece.lit "map"],
     [RePiece.lit "geographic"], [RePiece.lit "geo"], [RePiece.lit "mapping"],
     [RePiece.lit "visualise"], [RePiece.lit "visualize"],
     [RePiece.lit "map", RePiece.wsPlus, RePiece.lit "data"],
     [RePiece.lit "geographic", RePiece.wsPlus, RePiece.lit "data"],
     [RePiece.lit "affinity", RePiece.wsPlus, RePiece.lit "map"],
     [RePiece.lit "location", RePiece.wsPlus, RePiece.lit "data"]] q

/-- The three `demographic_patterns` regexes, expanded. -/
def demographicMatch (q : String) : Bool :=
  reSearchAny
    [[RePiece.lit "demographic"], [RePiece.lit "audience"], [RePiece.lit "age"],
     [RePiece.lit "gender"], [RePiece.lit "who", RePiece.wsPlus, RePiece.lit "likes"],
     [RePiece.lit "audience", RePiece.wsPlus, RePiece.lit "for"],
     [RePiece.lit "popular", RePiece.wsPlus, RePiece.lit "with"],
     [RePiece.lit "age", RePiece.wsPlus, RePiece.lit "group"],
     [RePiece.lit "gender", RePiece.wsPlus, RePiece.lit "breakdown"],
     [RePiece.lit "demographic", RePiece.wsPlus, RePiece.lit "data"]] q

/-- The three `taste_patterns` regexes, expanded. -/
def tasteMatch (q : String) : Bool :=
  reSearchAny
    [[RePiece.lit "cultural", RePiece.wsPlus, RePiece.lit "tag"], [RePiece.lit "taste"],
     [RePiece.lit "characteristic"], [RePiece.lit "metadata"],
     [RePiece.lit "tag", RePiece.wsPlus, RePiece.lit "analysis"],
     [RePiece.lit "cultural", RePiece.wsPlus, RePiece.lit "insight"],
     [RePiece.lit "taste", RePiece.wsPlus, RePiece.lit "profile"],
     [RePiece.lit "what", RePiece.wsPlus, RePiece.lit "defines"],
     [RePiece.lit "characteristics", RePiece.wsPlus, RePiece.lit "of"]] q

/-- The three `location_based_patterns` regexes, expanded. -/
def locationBasedMatch (q : String) : Bool :=
  reSearchAny
    [[RePiece.lit "popular", RePiece.wsPlus, RePiece.lit "in"],
     [RePiece.lit "trending", RePiece.wsPlus, RePiece.lit "in"],
     [RePiece.lit "specific", RePiece.wsPlus, RePiece.lit "to"],
     [RePiece.lit "location", RePiece.wsPlus, RePiece.lit "based"],
     [RePiece.lit "area", RePiece.wsPlus, RePiece.lit "specific"], [RePiece.lit "regional"],
     [RePiece.lit "local", RePiece.wsPlus, RePiece.lit "preferences"],
     [RePiece.lit "area", RePiece.wsPlus, RePiece.lit "recommendations"]] q

/-- What `classify_user_query` returns: the use case plus the params dict
`{location, query, query_lower}`. -/
structure ClassifyResult where
  useCase : QlooUseCase
  location : String
  query : String
  queryLower : String
deriving DecidableEq, Repr

/-- `classify_user_query` (source lines 44-105): patterns are tested on the
lowercased query in fixed priority order; the location-based branch also
needs a non-empty extracted location; everything else falls through to
recommendations. -/
def classifyUserQuery (query : String) : ClassifyResult :=
  let queryLower := pyLower query
  let location := extractLocation query
  let useCase :=
    if heatmapMatch queryLower then QlooUseCase.heatmaps
    else if demographicMatch queryLower then QlooUseCase.demographicInsights
    else if tasteMatch queryLower then QlooUseCase.tasteAnalysis
    else if locationBasedMatch queryLower ∧ location ≠ "" then
      QlooUseCase.locationBasedInsights
    else QlooUseCase.recommendationInsights
  ⟨useCase, location, query, queryLower⟩

/-! ### Parameter building (`build_qloo_parameters`, source lines 107-187) -/

/-- `_get_demographic_signals` (source lines 785-804). -/
def contextAgeMap : List (String × String) :=
  [("friends", "25_to_29,30_to_34"), ("couple", "25_to_29,30_to_34,35_to_44"),
   ("family", "30_to_34,35_to_44"), ("business", "35_to_44,45_to_54"),
   ("solo", "25_to_29,30_to_34"), ("large_group", "25_to_29,30_to_34"),
   ("tourists", "25_to_29,30_to_34,35_to_44"), ("locals", "30_to_34,35_to_44")]

def getDemographicSignals (socialContext : String) : ParamSet :=
  match contextAgeMap.find? (fun kv => kv.1 = socialContext) with
  | some kv => [("signal.demographics.age", kv.2)]
  | none => []

/-- Python `d.update(other)`. -/
def pupdate (ps other : ParamSet) : ParamSet :=
  other.foldl (fun acc kv => pset acc kv.1 kv.2) ps

/-- `build_qloo_parameters`; the error case is the `IndexError` that
`_determine_entity_and_comprehensive_params` can raise from the person
branch. -/
def buildQlooParameters (useCase : QlooUseCase) (location queryLower socialContext : String) :
    Except String ParamSet :=
  match useCase with
  | .recommendationInsights => do
      let ep ← determineEntityAndParams queryLower
      let qp := ep.2
      let qp := if location ≠ "" then pset qp "filter.location.query" location else qp
      pure (pupdate qp (getDemographicSignals socialContext))
  | .demographicInsights => do
      let qp := pset [] "filter.type" "urn:demographics"
      let ep ← determineEntityAndParams queryLower
      let qp :=
        match pget ep.2 "filter.tags" with
        | some t => pset qp "signal.interests.tags" t
        | none => qp
      pure qp
  | .heatmaps => do
      let qp := pset [] "filter.type" "urn:heatmap"
      let qp := if location ≠ "" then pset qp "filter.location.query" location else qp
      let ep ← determineEntityAndParams queryLower
      let qp :=
        match pget ep.2 "filter.tags" with
        | some t => pset qp "signal.interests.tags" t
        | none => qp
      pure qp
  | .locationBasedInsights => do
      let ep ← determineEntityAndParams queryLower
      let qp := pset ep.2 "signal.location.query" location
      let qp :=
        match pget qp "filter.tags" with
        | some t => pdel (pset qp "signal.interests.tags" t) "filter.tags"
        | none => qp
      pure qp
  | .tasteAnalysis =>
      let qp := pset [] "filter.type" "urn:tag"
      let qp :=
        if pyIn "media" queryLower || pyIn "movie" queryLower || pyIn "tv" queryLower then
          pset (pset qp "filter.tag.types" "urn:tag:keyword:media") "filter.parents.types"
            "urn:entity:movie,urn:entity:tv_show"
        else if pyIn "place" queryLower || pyIn "restaurant" queryLower then
          pset (pset qp "filter.tag.types" "urn:tag:genre:place") "filter.parents.types"
            "urn:entity:place"
        else qp
      let qp := if location ≠ "" then pset qp "signal.location.query" location else qp
      Except.ok qp

/-! ### The request layer (`make_qloo_request`, source lines 806-833) -/

/-- Source line 822: `"&".join([f"{k}={v}" for k, v in params.items() if v])`
— keys and values are interpolated verbatim, with falsy (empty) values
skipped. -/
def buildQueryString (params : ParamSet) : String :=
  String.intercalate "&"
    ((params.filter (fun kv => ¬ (kv.2 = ""))).map (fun kv => kv.1 ++ "=" ++ kv.2))

/-- What `make_qloo_request` decides before any I/O: either the structured
`{"error": ...}` result returned when the credential is missing, or the
full URL the HTTP GET would be issued against. -/
inductive RequestOutcome
  | earlyError (msg : String)
  | httpGet (url : String)
deriving DecidableEq, Repr

/-- `os.getenv("QLOO_API_KEY")` followed by `if not qloo_api_key` — the
environment variable is modelled as an `Option String` argument, with
falsiness covering both an unset and an empty value. -/
def keyMissing (apiKey : Option String) : Bool :=
  match apiKey with
  | none => true
  | some s => s = ""

def QLOO_API_BASE : String := "https://hackathon.api.qloo.com/v2"

/-- The pre-network phase of `make_qloo_request`: the credential check
happens before the client ever issues the GET. -/
def makeQlooRequestPlan (apiKey : Option String) (endpoint : String) (params : ParamSet) :
    RequestOutcome :=
  if keyMissing apiKey then RequestOutcome.earlyError "QLOO_API_KEY environment variable not set"
  else if params.isEmpty then RequestOutcome.httpGet endpoint
  else
    let qs := buildQueryString params
    RequestOutcome.httpGet (if qs = "" then endpoint else endpoint ++ "?" ++ qs)

/-! ### Tool surface (`@mcp.tool` functions, source lines 885-1087) -/

/-- `[c.value for c in SocialContext]`, in declaration order (source lines
21-30). -/
def socialContextValues : List String :=
  ["solo", "couple", "family", "friends", "business", "large_group", "tourists", "locals"]

/-- A single-quote character, used by the invalid-context message. -/
def sq : String := String.singleton (Char.ofNat 39)

/-- Source line 940: the message returned when `SocialContext(...)` raises
`ValueError`. -/
def invalidContextMsg (socialContext : String) : String :=
  "Invalid social context " ++ sq ++ socialContext ++ sq ++ ". Valid options: " ++
    String.intercalate ", " socialContextValues

/-- What a tool call decides before any I/O: either a string returned
without any network request, or a network request it is about to issue. -/
inductive ToolOutcome
  | earlyReturn (s : String)
  | networkRequest (url : String) (params : ParamSet)
deriving DecidableEq, Repr

/-- The pre-network phase of the `get_qloo_recommendations` tool (source
lines 885-965): the social-context validation runs first; exceptions from
classification/parameter building are caught and rendered; the missing
credential is detected inside `make_qloo_request` before the GET and
rendered by line 959. -/
def getQlooRecommendationsPlan (apiKey : Option String) (query socialContext : String) :
    ToolOutcome :=
  if socialContextValues.contains (pyLower socialContext) then
    let r := classifyUserQuery query
    match buildQlooParameters r.useCase r.location r.queryLower socialContext with
    | Except.error e => ToolOutcome.earlyReturn ("❌ Error processing query: " ++ e)
    | Except.ok qp =>
        match makeQlooRequestPlan apiKey (QLOO_API_BASE ++ "/insights") qp with
        | RequestOutcome.earlyError msg => ToolOutcome.earlyReturn ("❌ Error: " ++ msg)
        | RequestOutcome.httpGet url => ToolOutcome.networkRequest url qp
  else ToolOutcome.earlyReturn (invalidContextMsg socialContext)

/-- The parameter listing of the debug output (source lines 1077-1082). -/
def paramLines (ps : ParamSet) : String :=
  String.join (ps.map (fun kv => "  • " ++ kv.1 ++ ": " ++ kv.2 ++ "\n"))

/-- The formatted output of `debug_query_analysis` (source lines
1071-1084). -/
def debugOutput (query : String) (uc : QlooUseCase) (entityType : String)
    (entityParams qlooParams : ParamSet) : String :=
  "🔬 **Query Analysis Debug**\n\n" ++
    "**Original Query:** " ++ query ++ "\n\n" ++
    "**Detected Use Case:** " ++ useCaseValue uc ++ "\n\n" ++
    "**Entity Type:** " ++ entityType ++ "\n\n" ++
    "**Extracted Parameters:**\n" ++ paramLines entityParams ++
    "\n**Final Qloo API Parameters:**\n" ++ paramLines qlooParams

/-- The `debug_query_analysis` tool (source lines 1048-1087): it performs
classification and parameter extraction only, never calls
`make_qloo_request`, and never reads the credential — the `apiKey`
argument is unused because the Python function ignores the environment. -/
def debugQueryAnalysisPlan (apiKey : Option String) (query : String) : ToolOutcome :=
  let _ := apiKey
  let r := classifyUserQuery query
  match determineEntityAndParams r.queryLower with
  | Except.error e => ToolOutcome.earlyReturn ("❌ Error analyzing query: " ++ e)
  | Except.ok ep =>
      match buildQlooParameters r.useCase r.location r.queryLower "friends" with
      | Except.error e => ToolOutcome.earlyReturn ("❌ Error analyzing query: " ++ e)
      | Except.ok qp =>
          ToolOutcome.earlyReturn (debugOutput query r.useCase ep.1 ep.2 qp)

/-! ### Parameter Schema Validator (spec section 4.3)

No schema-validation function exists anywhere under src/ — the spec
describes it from a historical revision.  It is therefore modelled from
the spec's words and verified as such. -/

/-- Modelled from the spec: the Parameter Schema Validator of spec section
4.3, absent from src/.  "Looks up the EntityType's allow-listed key set;
returns a copy containing only keys present in that set (silently dropping
the rest — no error is raised for unsupported keys).  If an EntityType has
no registered schema, returns the input unchanged (permissive
fallback)." -/
def validateParams (schemas : List (String × List String)) (entityType : String)
    (ps : ParamSet) : ParamSet :=
  match schemas.find? (fun s => s.1 = entityType) with
  | some s => ps.filter (fun kv => s.2.contains kv.1)
  | none => ps

/-- Following the spec's words on request-string construction (spec
section 4.6, "percent-encodes every key and value"): a percent-encoded
key or value contains no raw space character — a space must have been
escaped.  Used to compare the spec's claim with the code's verbatim
joining. -/
def specPercentEncodedNoSpace (s : String) : Bool :=
  !(s.data.any (fun c => c = ' '))

/-! ## Lemmas about the dict operations -/

theorem pget_pset_self (ps : ParamSet) (k v : String) : pget (pset ps k v) k = some v := by
  induction ps with
  | nil => simp [pset, pget, List.find?]
  | cons a as ih =>
      by_cases h : a.1 = k
      · simp [pset, h, pget, List.find?]
      · simp only [pset, if_neg h]
        simpa [pget, List.find?, h] using ih

theorem pget_pset_ne (ps : ParamSet) (k k' v : String) (h : k ≠ k') :
    pget (pset ps k' v) k = pget ps k := by
  have hk : ¬ (k' = k) := fun hh => h hh.symm
  induction ps with
  | nil => simp [pset, pget, List.find?, hk]
  | cons a as ih =>
      by_cases ha : a.1 = k'
      · have hak : ¬ (a.1 = k) := by rw [ha]; exact hk
        simp [pset, ha, pget, List.find?, hak, hk]
      · by_cases hak : a.1 = k
        · simp [pset, ha, pget, List.find?, hak, h]
        · simp only [pset, if_neg ha]
          simpa [pget, List.find?, hak] using ih

/-- The book fallthrough always leaves `filter.type = urn:entity:book`. -/
theorem pget_bookTail_filter_type (q : String) (p : ParamSet) :
    pget (bookTailParams q p) "filter.type" = some "urn:entity:book" := by
  unfold bookTailParams
  dsimp only
  split
  · rw [pget_pset_ne _ _ _ _ (by decide)]
    split
    · rw [pget_pset_ne _ _ _ _ (by decide), pget_pset_self]
    · rw [pget_pset_self]
  · split
    · rw [pget_pset_ne _ _ _ _ (by decide), pget_pset_self]
    · rw [pget_pset_self]

/-- The person fallthrough always leaves `filter.type = urn:entity:person`. -/
theorem pget_personTail_filter_type (q : String) (p : ParamSet) :
    pget (personTailParams q p) "filter.type" = some "urn:entity:person" := by
  unfold personTailParams
  dsimp only
  split
  · rw [pget_pset_ne _ _ _ _ (by decide), pget_pset_self]
  · split
    · rw [pget_pset_ne _ _ _ _ (by decide), pget_pset_self]
    · rw [pget_pset_self]

/-- The person branch, when it does not raise, returns the destination
entity type. -/
theorem personBranch_ok_entity (q : String) (e : String) (ps : ParamSet)
    (h : personBranch q = Except.ok (e, ps)) : e = "urn:entity:destination" := by
  unfold personBranch at h
  split at h
  · exact absurd h (by simp)
  · simp only [Except.ok.injEq, Prod.mk.injEq] at h
    exact h.1.symm

/-- Every trigger word of the second (unreachable) TV branch is also a
trigger word of the first TV branch. -/
theorem tv2Trigger_imp_tvTrigger (q : String) (h : tv2Trigger q = true) :
    tvTrigger q = true := by
  simp only [tv2Trigger, tvTrigger, anyIn, List.any_cons, List.any_nil,
    Bool.or_eq_true] at h ⊢
  tauto

/-- Closed enumeration of the entity types the cascade can return: the
brand branch ends in book, the person branch in destination, the TV branch
in person, and the second TV branch is unreachable, so neither
`urn:entity:brand` nor `urn:entity:tv_show` ever escapes. -/
theorem determine_entity_mem (q : String) (e : String) (ps : ParamSet)
    (h : determineEntityAndParams q = Except.ok (e, ps)) :
    e ∈ ["urn:entity:artist", "urn:entity:book", "urn:entity:movie",
      "urn:entity:destination", "urn:entity:person", "urn:entity:podcast",
      "urn:entity:video_game", "urn:entity:place"] := by
  unfold determineEntityAndParams at h
  by_cases h1 : artistTrigger q = true
  · rw [if_pos h1] at h
    simp only [Except.ok.injEq, Prod.mk.injEq] at h
    rw [← h.1]; decide
  · rw [if_neg h1] at h
    by_cases h2 : brandTrigger q = true
    · rw [if_pos h2] at h
      simp only [Except.ok.injEq, Prod.mk.injEq] at h
      rw [← h.1]; decide
    · rw [if_neg h2] at h
      by_cases h3 : movieTrigger q = true
      · rw [if_pos h3] at h
        simp only [Except.ok.injEq, Prod.mk.injEq] at h
        rw [← h.1]; decide
      · rw [if_neg h3] at h
        by_cases h4 : personTrigger q = true
        · rw [if_pos h4] at h
          rw [personBranch_ok_entity q e ps h]; decide
        · rw [if_neg h4] at h
          by_cases h5 : tvTrigger q = true
          · rw [if_pos h5] at h
            simp only [Except.ok.injEq, Prod.mk.injEq] at h
            rw [← h.1]; decide
          · rw [if_neg h5] at h
            by_cases h6 : podcastTrigger q = true
            · rw [if_pos h6] at h
              simp only [Except.ok.injEq, Prod.mk.injEq] at h
              rw [← h.1]; decide
            · rw [if_neg h6] at h
              by_cases h7 : tv2Trigger q = true
              · exact absurd (tv2Trigger_imp_tvTrigger q h7) h5
              · rw [if_neg h7] at h
                by_cases h8 : gameTrigger q = true
                · rw [if_pos h8] at h
                  simp only [Except.ok.injEq, Prod.mk.injEq] at h
                  rw [← h.1]; decide
                · rw [if_neg h8] at h
                  simp only [Except.ok.injEq, Prod.mk.injEq] at h
                  rw [← h.1]; decide

/-! ## Claim theorems -/

/-- C1 (counterexample): the query "actor movie" contains the Person
trigger word "actor" and the Movie trigger word "movie", yet the cascade
returns the Movie entity type, not Person — the Movie group is tested
before Person, so the claimed Person-first priority fails. -/
theorem claim_C1_counterexample :
    personTrigger "actor movie" = true ∧ movieTrigger "actor movie" = true ∧
    determineEntityAndParams "actor movie" =
      Except.ok ("urn:entity:movie", [("filter.type", "urn:entity:movie")]) ∧
    ("urn:entity:movie" : String) ≠ "urn:entity:person" :=
  ⟨by decide, by decide, by rfl, by decide⟩

/-- C1 (amended): entity selection is a strict priority cascade that tests
Artist trigger words first, then Brand, Movie, Person, TvShow, Podcast, a
second TvShow group, VideoGame, and returns the Place entity type when no
group's trigger words match; for every query text containing both a
Person trigger word and a Movie trigger word (and no Artist or Brand
trigger word) the Movie entity type is chosen, not Person. -/
theorem claim_C1 (q : String)
    (ha : artistTrigger q = false) (hb : brandTrigger q = false) :
    (movieTrigger q = true → personTrigger q = true →
       determineEntityAndParams q = Except.ok ("urn:entity:movie", movieParams q)) ∧
    (movieTrigger q = false → personTrigger q = false → tvTrigger q = false →
       podcastTrigger q = false → tv2Trigger q = false → gameTrigger q = false →
       determineEntityAndParams q = Except.ok ("urn:entity:place", placeParams q)) := by
  constructor
  · intro hm _
    simp [determineEntityAndParams, ha, hb, hm]
  · intro hm hp htv hpod htv2 hg
    simp [determineEntityAndParams, ha, hb, hm, hp, htv, hpod, htv2, hg]

/-- C1 (witness): the amended theorem applied to "actor movie" (Movie
wins over Person) and to "somewhere nice" (no trigger at all, Place). -/
theorem claim_C1_witness :
    determineEntityAndParams "actor movie" =
      Except.ok ("urn:entity:movie", movieParams "actor movie") ∧
    determineEntityAndParams "somewhere nice" =
      Except.ok ("urn:entity:place", placeParams "somewhere nice") :=
  ⟨(claim_C1 "actor movie" (by decide) (by decide)).1 (by decide) (by decide),
   (claim_C1 "somewhere nice" (by decide) (by decide)).2 (by decide) (by decide)
     (by decide) (by decide) (by decide) (by decide)⟩

/-- C4: evaluation at the failing input — for the lowercased documented
query "classic family-friendly comedies" (which contains no Movie trigger
word) the extractor returns the default Place entity type with only
`filter.type`, and none of the release-year bound, content rating or
comedy tag promised by the claim and by the source's own example
documentation. -/
theorem claim_C4 :
    determineEntityAndParams "classic family-friendly comedies" =
      Except.ok ("urn:entity:place", [("filter.type", "urn:entity:place")]) ∧
    movieTrigger "classic family-friendly comedies" = false ∧
    pget (placeParams "classic family-friendly comedies") "filter.release_year.max" = none ∧
    pget (placeParams "classic family-friendly comedies") "filter.content_rating" = none ∧
    pget (placeParams "classic family-friendly comedies") "filter.tags" = none :=
  ⟨by rfl, by decide, by decide, by decide, by decide⟩

/-- C5: for the lowercased query "find trending indie rock musicians with
high popularity on spotify" the extractor returns the Artist entity type
with `bias.trends = high`, a popularity minimum, the rock genre tag inside
`filter.tags`, and the spotify external-platform filter. -/
theorem claim_C5 :
    determineEntityAndParams "find trending indie rock musicians with high popularity on spotify" =
      Except.ok ("urn:entity:artist",
        [("filter.type", "urn:entity:artist"), ("bias.trends", "high"),
         ("filter.popularity.min", "0.7"),
         ("filter.tags", "urn:tag:genre:music:rock,urn:tag:genre:music:pop"),
         ("filter.external.exists", "spotify")]) ∧
    pyIn "urn:tag:genre:music:rock"
      "urn:tag:genre:music:rock,urn:tag:genre:music:pop" = true :=
  ⟨by rfl, by decide⟩

/-- C2: for every input string `classify_user_query` returns exactly one
use case (the function is total — no input errors), chosen by fixed
priority when several pattern groups match: heatmap beats demographic
beats taste beats location-based (which additionally requires a non-empty
extracted location) beats the default recommendation, which is returned
when no other group matches. -/
theorem claim_C2 (query : String) :
    (heatmapMatch (pyLower query) = true →
       (classifyUserQuery query).useCase = QlooUseCase.heatmaps) ∧
    (heatmapMatch (pyLower query) = false → demographicMatch (pyLower query) = true →
       (classifyUserQuery query).useCase = QlooUseCase.demographicInsights) ∧
    (heatmapMatch (pyLower query) = false → demographicMatch (pyLower query) = false →
       tasteMatch (pyLower query) = true →
       (classifyUserQuery query).useCase = QlooUseCase.tasteAnalysis) ∧
    (heatmapMatch (pyLower query) = false → demographicMatch (pyLower query) = false →
       tasteMatch (pyLower query) = false → locationBasedMatch (pyLower query) = true →
       extractLocation query ≠ "" →
       (classifyUserQuery query).useCase = QlooUseCase.locationBasedInsights) ∧
    (heatmapMatch (pyLower query) = false → demographicMatch (pyLower query) = false →
       tasteMatch (pyLower query) = false →
       (locationBasedMatch (pyLower query) = false ∨ extractLocation query = "") →
       (classifyUserQuery query).useCase = QlooUseCase.recommendationInsights) := by
  refine ⟨?_, ?_, ?_, ?_, ?_⟩
  · intro h1
    simp [classifyUserQuery, h1]
  · intro h1 h2
    simp [classifyUserQuery, h1, h2]
  · intro h1 h2 h3
    simp [classifyUserQuery, h1, h2, h3]
  · intro h1 h2 h3 h4 h5
    simp [classifyUserQuery, h1, h2, h3, h4, h5]
  · intro h1 h2 h3 h4
    rcases h4 with h4 | h4 <;> simp [classifyUserQuery, h1, h2, h3, h4]

/-- C2 (witness): "heatmap by age group" matches both the heatmap and the
demographic pattern groups; heatmap wins. -/
theorem claim_C2_witness :
    (classifyUserQuery "heatmap by age group").useCase = QlooUseCase.heatmaps :=
  (claim_C2 "heatmap by age group").1 (by decide)

/-- C3 (spec-modelled — no schema validator exists under src/): for every
entity type and extracted parameter set, the parameter set surviving
schema validation contains only keys of that entity type's allow-list;
validation silently filters and never raises (it is a total function),
and an entity type with no registered schema passes the input through
unchanged. -/
theorem claim_C3 (schemas : List (String × List String)) (entityType : String)
    (ps : ParamSet) :
    (∀ s, schemas.find? (fun t => t.1 = entityType) = some s →
       ∀ kv ∈ validateParams schemas entityType ps, kv.1 ∈ s.2) ∧
    (schemas.find? (fun t => t.1 = entityType) = none →
       validateParams schemas entityType ps = ps) := by
  constructor
  · intro s hs kv hkv
    unfold validateParams at hkv
    rw [hs] at hkv
    have hmem := List.mem_filter.mp hkv
    simpa using hmem.2
  · intro hs
    unfold validateParams
    rw [hs]

/-- C3 (witness): a registered movie schema drops the unsupported key and
keeps the allow-listed one; an unregistered entity type passes through. -/
theorem claim_C3_witness :
    (("filter.type" : String) ∈ ["filter.type", "filter.tags"]) ∧
    validateParams [] "urn:entity:person" [("a", "b")] = [("a", "b")] :=
  ⟨(claim_C3 [("urn:entity:movie", ["filter.type", "filter.tags"])]
      "urn:entity:movie" [("filter.type", "urn:entity:movie"), ("bogus", "1")]).1
      ("urn:entity:movie", ["filter.type", "filter.tags"]) (by decide)
      ("filter.type", "urn:entity:movie") (by decide),
   (claim_C3 [] "urn:entity:person" [("a", "b")]).2 (by decide)⟩

/-- C6 (counterexample): "FAMILY" is not one of the 8 enumerated values,
yet `get_qloo_recommendations` does not return the error string for it —
the code lowercases before validating, and with a credential present the
call proceeds all the way to a network request. -/
theorem claim_C6_counterexample :
    socialContextValues.contains "FAMILY" = false ∧
    getQlooRecommendationsPlan (some "k") "restaurants in Paris" "FAMILY" =
      ToolOutcome.networkRequest
        "https://hackathon.api.qloo.com/v2/insights?filter.type=urn:entity:place&filter.tags=urn:tag:genre:place:restaurant&filter.location.query=Paris"
        [("filter.type", "urn:entity:place"),
         ("filter.tags", "urn:tag:genre:place:restaurant"),
         ("filter.location.query", "Paris")] :=
  ⟨by decide, by rfl⟩

/-- C6 (amended): for every social_context string whose lowercased form is
not one of the 8 enumerated values, `get_qloo_recommendations` returns the
descriptive error message listing all 8 valid options — for any credential
and any query, without raising and without any network request. -/
theorem claim_C6 (socialContext : String)
    (h : socialContextValues.contains (pyLower socialContext) = false) :
    ∀ (apiKey : Option String) (query : String),
      getQlooRecommendationsPlan apiKey query socialContext =
        ToolOutcome.earlyReturn (invalidContextMsg socialContext) := by
  intro apiKey query
  unfold getQlooRecommendationsPlan
  rw [if_neg]
  rw [h]
  exact Bool.false_ne_true

/-- C6 (witness): the amended theorem at social_context "banana". -/
theorem claim_C6_witness :
    getQlooRecommendationsPlan none "find restaurants" "banana" =
      ToolOutcome.earlyReturn (invalidContextMsg "banana") :=
  claim_C6 "banana" (by decide) none "find restaurants"

/-- C7 (counterexample): with the credential absent, the
`debug_query_analysis` tool does not return a structured error — it
returns its normal analysis output (the tool never reads the credential
and never attempts a request in the first place). -/
theorem claim_C7_counterexample :
    debugQueryAnalysisPlan none "museum" =
      ToolOutcome.earlyReturn "🔬 **Query Analysis Debug**\n\n**Original Query:** museum\n\n**Detected Use Case:** recommendation_insights\n\n**Entity Type:** urn:entity:place\n\n**Extracted Parameters:**\n  • filter.type: urn:entity:place\n  • filter.tags: urn:tag:genre:place:museum\n\n**Final Qloo API Parameters:**\n  • filter.type: urn:entity:place\n  • filter.tags: urn:tag:genre:place:museum\n  • signal.demographics.age: 25_to_29,30_to_34\n" ∧
    isPre "❌ Error".data "🔬 **Query Analysis Debug**\n\n**Original Query:** museum\n\n**Detected Use Case:** recommendation_insights\n\n**Entity Type:** urn:entity:place\n\n**Extracted Parameters:**\n  • filter.type: urn:entity:place\n  • filter.tags: urn:tag:genre:place:museum\n\n**Final Qloo API Parameters:**\n  • filter.type: urn:entity:place\n  • filter.tags: urn:tag:genre:place:museum\n  • signal.demographics.age: 25_to_29,30_to_34\n".data = false :=
  ⟨by set_option maxRecDepth 20000 in rfl, by decide⟩

/-- C7 (amended): when the credential is absent, every tool call that
reaches the request layer returns a structured error detected before any
network request — `make_qloo_request` short-circuits with the error result
for every endpoint and parameter set, and `get_qloo_recommendations`
consequently returns only error strings; `debug_query_analysis` performs
no network request and returns its normal analysis output instead. -/
theorem claim_C7 :
    (∀ (endpoint : String) (params : ParamSet),
       makeQlooRequestPlan none endpoint params =
         RequestOutcome.earlyError "QLOO_API_KEY environment variable not set") ∧
    (∀ query : String,
       (∃ e, getQlooRecommendationsPlan none query "friends" =
          ToolOutcome.earlyReturn ("❌ Error processing query: " ++ e)) ∨
       getQlooRecommendationsPlan none query "friends" =
         ToolOutcome.earlyReturn ("❌ Error: QLOO_API_KEY environment variable not set")) := by
  constructor
  · intro endpoint params
    rfl
  · intro query
    unfold getQlooRecommendationsPlan
    rw [if_pos (by decide : socialContextValues.contains (pyLower "friends") = true)]
    dsimp only
    cases h : buildQlooParameters (classifyUserQuery query).useCase
        (classifyUserQuery query).location (classifyUserQuery query).queryLower "friends" with
    | error e =>
        left
        exact ⟨e, rfl⟩
    | ok qp =>
        right
        rfl

/-- C8 (counterexample): the request string interpolates values verbatim —
a value holding a space reaches the URL unencoded, so keys and values are
not percent-encoded as claimed. -/
theorem claim_C8_counterexample :
    buildQueryString [("filter.location.query", "New York")] =
      "filter.location.query=New York" ∧
    specPercentEncodedNoSpace "filter.location.query=New York" = false :=
  ⟨by rfl, by decide⟩

/-- C8 (amended): final request-string construction joins every parameter
verbatim as key=value (with & separators and falsy values skipped); no
percent-encoding of keys or values is applied. -/
theorem claim_C8 (k v : String) (h : v ≠ "") :
    buildQueryString [(k, v)] = k ++ "=" ++ v := by
  unfold buildQueryString
  rw [List.filter_cons_of_pos]
  · rfl
  · simpa using h

/-- C8 (witness): the amended theorem at a concrete pair. -/
theorem claim_C8_witness : buildQueryString [("a", "b")] = "a" ++ "=" ++ "b" :=
  claim_C8 "a" "b" (by decide)

/-- C9: every query with a Brand trigger word and no Artist trigger word
yields entity type `urn:entity:book` with `filter.type = urn:entity:book`
— the brand branch ends with an unconditional reassignment to book — and
no input ever yields `urn:entity:brand`. -/
theorem claim_C9 (q : String) :
    (brandTrigger q = true → artistTrigger q = false →
       determineEntityAndParams q = Except.ok ("urn:entity:book", brandParams q) ∧
       pget (brandParams q) "filter.type" = some "urn:entity:book") ∧
    (∀ (e : String) (ps : ParamSet),
       determineEntityAndParams q = Except.ok (e, ps) → e ≠ "urn:entity:brand") := by
  constructor
  · intro hb ha
    refine ⟨by simp [determineEntityAndParams, ha, hb], ?_⟩
    unfold brandParams
    exact pget_bookTail_filter_type q _
  · intro e ps h he
    have hmem := determine_entity_mem q e ps h
    rw [he] at hmem
    exact absurd hmem (by decide)

/-- C9 (witness): the brand query "company" yields the book entity. -/
theorem claim_C9_witness :
    determineEntityAndParams "company" =
      Except.ok ("urn:entity:book", brandParams "company") ∧
    pget (brandParams "company") "filter.type" = some "urn:entity:book" :=
  (claim_C9 "company").1 (by decide) (by decide)

/-- C10: every query with a TvShow trigger word and no trigger word of an
earlier cascade branch yields entity type `urn:entity:person` with
`filter.type = urn:entity:person` — the TV branch ends with an
unconditional reassignment to person — and no input ever yields
`urn:entity:tv_show` (the second TV branch is unreachable because its
trigger words are a subset of the first TV branch's). -/
theorem claim_C10 (q : String) :
    (tvTrigger q = true → artistTrigger q = false → brandTrigger q = false →
       movieTrigger q = false → personTrigger q = false →
       determineEntityAndParams q = Except.ok ("urn:entity:person", tvParams q) ∧
       pget (tvParams q) "filter.type" = some "urn:entity:person") ∧
    (∀ (e : String) (ps : ParamSet),
       determineEntityAndParams q = Except.ok (e, ps) → e ≠ "urn:entity:tv_show") := by
  constructor
  · intro htv ha hb hm hp
    refine ⟨by simp [determineEntityAndParams, ha, hb, hm, hp, htv], ?_⟩
    unfold tvParams
    exact pget_personTail_filter_type q _
  · intro e ps h he
    have hmem := determine_entity_mem q e ps h
    rw [he] at hmem
    exact absurd hmem (by decide)

/-- C10 (witness): the TV query "netflix" yields the person entity. -/
theorem claim_C10_witness :
    determineEntityAndParams "netflix" =
      Except.ok ("urn:entity:person", tvParams "netflix") ∧
    pget (tvParams "netflix") "filter.type" = some "urn:entity:person" :=
  (claim_C10 "netflix").1 (by decide) (by decide) (by decide) (by decide) (by decide)

end Qloo
